import Mathlib

/-!
Verification development for the `SatelliteTracker` React component
(src/components/SatelliteTracker.tsx).

The component's math core (rotation-matrix builder, perspective projector,
spherical-to-cartesian converter) is embedded over `ℝ`; JavaScript `number`
arithmetic is modelled as exact real arithmetic. The interaction state
machine (rotation/zoom/drag state, satellite list, filter) is embedded over
`ℚ` so that concrete runs evaluate; JavaScript's `%` remainder (truncated
toward zero) is modelled explicitly by `jsRem`.
-/

namespace SatTracker

/-- A 3D point, as the `{x, y, z}` object literals of the source. -/
structure Point3 where
  x : ℝ
  y : ℝ
  z : ℝ

/-- The flat row-major 9-element array returned by `calculateMatrix`;
field `mi` is `matrix[i]` of the source. -/
structure Mat3 where
  m0 : ℝ
  m1 : ℝ
  m2 : ℝ
  m3 : ℝ
  m4 : ℝ
  m5 : ℝ
  m6 : ℝ
  m7 : ℝ
  m8 : ℝ

noncomputable section RealMath

/-- Embedding of `calculateMatrix` (SatelliteTracker.tsx lines 63-74):
builds the row-major matrix from the two rotation angles in degrees. -/
def calculateMatrix (x y : ℝ) : Mat3 :=
  let cosX := Real.cos (x * Real.pi / 180)
  let sinX := Real.sin (x * Real.pi / 180)
  let cosY := Real.cos (y * Real.pi / 180)
  let sinY := Real.sin (y * Real.pi / 180)
  { m0 := cosY, m1 := 0, m2 := sinY,
    m3 := sinX * sinY, m4 := cosX, m5 := -sinX * cosY,
    m6 := -cosX * sinY, m7 := sinX, m8 := cosX * cosY }

/-- Embedding of `project3D` (lines 77-88): applies the row-major matrix,
then the perspective divide with focal constant 1000; the returned `z` is
the transformed depth, unscaled. -/
def project3D (point : Point3) (matrix : Mat3) : Point3 :=
  let x := point.x * matrix.m0 + point.y * matrix.m1 + point.z * matrix.m2
  let y := point.x * matrix.m3 + point.y * matrix.m4 + point.z * matrix.m5
  let z := point.x * matrix.m6 + point.y * matrix.m7 + point.z * matrix.m8
  let scale := 1000 / (1000 + z)
  { x := x * scale, y := y * scale, z := z }

/-- Embedding of `toCartesian` (lines 91-99): the source receives `lon` and
`lat` as decimal strings and applies `parseFloat`; here they are the parsed
numeric values. The longitude is offset by −90° before conversion to
radians. -/
def toCartesian (lon lat : ℝ) (radius : ℝ) : Point3 :=
  let lonRad := (lon - 90) * Real.pi / 180
  let latRad := lat * Real.pi / 180
  { x := radius * Real.cos latRad * Real.cos lonRad,
    y := radius * Real.cos latRad * Real.sin lonRad,
    z := radius * Real.sin latRad }

/-- Embedding of `isVisible` (line 143): a point is drawn only when its
transformed depth exceeds −100. -/
def isVisible (z : ℝ) : Prop := z > -100

/-- The opacity assigned to a rendered satellite (line 269):
`(proj.z + 100) / 200`. -/
def renderOpacity (z : ℝ) : ℝ := (z + 100) / 200

/-- Specification-side definition: application of a row-major 3×3 matrix to
a point ("applies the matrix" of spec §4.3). -/
def matApply (m : Mat3) (p : Point3) : Point3 :=
  { x := p.x * m.m0 + p.y * m.m1 + p.z * m.m2,
    y := p.x * m.m3 + p.y * m.m4 + p.z * m.m5,
    z := p.x * m.m6 + p.y * m.m7 + p.z * m.m8 }

/-- Specification-side definition: the standard rotation matrix about the
x-axis by `t` radians, row-major. -/
def rotXmat (t : ℝ) : Mat3 :=
  { m0 := 1, m1 := 0, m2 := 0,
    m3 := 0, m4 := Real.cos t, m5 := -Real.sin t,
    m6 := 0, m7 := Real.sin t, m8 := Real.cos t }

/-- Specification-side definition: the standard rotation matrix about the
y-axis by `t` radians, row-major. -/
def rotYmat (t : ℝ) : Mat3 :=
  { m0 := Real.cos t, m1 := 0, m2 := Real.sin t,
    m3 := 0, m4 := 1, m5 := 0,
    m6 := -Real.sin t, m7 := 0, m8 := Real.cos t }

/-- Row-major 3×3 matrix product. -/
def matMul (a b : Mat3) : Mat3 :=
  { m0 := a.m0 * b.m0 + a.m1 * b.m3 + a.m2 * b.m6,
    m1 := a.m0 * b.m1 + a.m1 * b.m4 + a.m2 * b.m7,
    m2 := a.m0 * b.m2 + a.m1 * b.m5 + a.m2 * b.m8,
    m3 := a.m3 * b.m0 + a.m4 * b.m3 + a.m5 * b.m6,
    m4 := a.m3 * b.m1 + a.m4 * b.m4 + a.m5 * b.m7,
    m5 := a.m3 * b.m2 + a.m4 * b.m5 + a.m5 * b.m8,
    m6 := a.m6 * b.m0 + a.m7 * b.m3 + a.m8 * b.m6,
    m7 := a.m6 * b.m1 + a.m7 * b.m4 + a.m8 * b.m7,
    m8 := a.m6 * b.m2 + a.m7 * b.m5 + a.m8 * b.m8 }

/-- Transpose of a row-major 3×3 matrix. -/
def matTranspose (a : Mat3) : Mat3 :=
  { m0 := a.m0, m1 := a.m3, m2 := a.m6,
    m3 := a.m1, m4 := a.m4, m5 := a.m7,
    m6 := a.m2, m7 := a.m5, m8 := a.m8 }

/-- The 3×3 identity matrix, row-major. -/
def mat3Id : Mat3 :=
  { m0 := 1, m1 := 0, m2 := 0,
    m3 := 0, m4 := 1, m5 := 0,
    m6 := 0, m7 := 0, m8 := 1 }

/-- Determinant of a row-major 3×3 matrix. -/
def det3 (a : Mat3) : ℝ :=
  a.m0 * (a.m4 * a.m8 - a.m5 * a.m7)
    - a.m1 * (a.m3 * a.m8 - a.m5 * a.m6)
    + a.m2 * (a.m3 * a.m7 - a.m4 * a.m6)

end RealMath

/-- Cauchy–Schwarz for two unit vectors in ℝ³, via the Lagrange identity. -/
theorem unit_dot_sq_le_one (a1 a2 a3 b1 b2 b3 : ℝ)
    (ha : a1 ^ 2 + a2 ^ 2 + a3 ^ 2 = 1) (hb : b1 ^ 2 + b2 ^ 2 + b3 ^ 2 = 1) :
    (a1 * b1 + a2 * b2 + a3 * b3) ^ 2 ≤ 1 := by
  nlinarith [sq_nonneg (a1 * b2 - a2 * b1), sq_nonneg (a1 * b3 - a3 * b1),
    sq_nonneg (a2 * b3 - a3 * b2)]

/-- C7: `project3D` first applies the matrix to the point, then scales the
first two coordinates by `1000 / (1000 + depth)` and returns the transformed
depth itself, unscaled. -/
theorem project3D_decomposition (p : Point3) (m : Mat3) :
    project3D p m =
      { x := (matApply m p).x * (1000 / (1000 + (matApply m p).z)),
        y := (matApply m p).y * (1000 / (1000 + (matApply m p).z)),
        z := (matApply m p).z } := rfl

/-- C6: `calculateMatrix x y` is the product of the standard rotation about
the x-axis by `x·π/180` with the standard rotation about the y-axis by
`y·π/180`; consequently it is orthogonal with determinant 1. -/
theorem calculateMatrix_is_rotation (x y : ℝ) :
    calculateMatrix x y =
      matMul (rotXmat (x * Real.pi / 180)) (rotYmat (y * Real.pi / 180)) ∧
    matMul (calculateMatrix x y) (matTranspose (calculateMatrix x y)) = mat3Id ∧
    det3 (calculateMatrix x y) = 1 := by
  have hx := Real.sin_sq_add_cos_sq (x * Real.pi / 180)
  have hy := Real.sin_sq_add_cos_sq (y * Real.pi / 180)
  set sx := Real.sin (x * Real.pi / 180) with hsx
  set cx := Real.cos (x * Real.pi / 180) with hcx
  set sy := Real.sin (y * Real.pi / 180) with hsy
  set cy := Real.cos (y * Real.pi / 180) with hcy
  refine ⟨?_, ?_, ?_⟩
  · simp only [calculateMatrix, matMul, rotXmat, rotYmat, Mat3.mk.injEq]
    refine ⟨?_, ?_, ?_, ?_, ?_, ?_, ?_, ?_, ?_⟩ <;> ring
  · simp only [calculateMatrix, matMul, matTranspose, mat3Id, Mat3.mk.injEq]
    refine ⟨?_, ?_, ?_, ?_, ?_, ?_, ?_, ?_, ?_⟩
    · linear_combination hy
    · ring
    · ring
    · ring
    · linear_combination sx ^ 2 * hy + hx
    · linear_combination (-(sx * cx)) * hy
    · ring
    · linear_combination (-(sx * cx)) * hy
    · linear_combination cx ^ 2 * hy + hx
  · simp only [calculateMatrix, det3]
    linear_combination (cy ^ 2 + sy ^ 2) * hx + hy

/-- A 2D rational point; used for pointer coordinates, the drag anchor and
the rotation angle pair. -/
structure Vec2 where
  x : ℚ
  y : ℚ
deriving DecidableEq

/-- An entity of the `Satellite` interface (lines 11-18). The source stores
`lon`, `lat`, `alt` as decimal strings produced by `toFixed(2)` and parses
them back with `parseFloat`; here they carry the parsed rational value.
`category` is one of five fixed strings. -/
structure Satellite where
  name : String
  norad_id : ℕ
  lon : ℚ
  lat : ℚ
  alt : ℚ
  category : String
deriving DecidableEq

/-- The component's `useState` variables (lines 21-29). -/
structure ComponentState where
  rotation : Vec2
  zoom : ℚ
  isDragging : Bool
  dragStart : Vec2
  satellites : List Satellite
  loading : Bool
  filter : String
  searchTerm : String
  error : Option String
deriving DecidableEq

/-- The initial state set by the `useState` calls: rotation `(0,0)`,
zoom `1`, not dragging, anchor `(0,0)`, empty satellite list, loading,
filter `"all"`, empty search term, no error. -/
def initState : ComponentState :=
  { rotation := ⟨0, 0⟩, zoom := 1, isDragging := false, dragStart := ⟨0, 0⟩,
    satellites := [], loading := true, filter := "all", searchTerm := "",
    error := none }

/-- Truncation toward zero, the rounding JavaScript's `%` applies to the
quotient. -/
def rtrunc (q : ℚ) : ℤ := if 0 ≤ q then ⌊q⌋ else ⌈q⌉

/-- JavaScript's remainder operator `a % b`: `a - b * trunc (a / b)`, so the
result carries the sign of the dividend. -/
def jsRem (a b : ℚ) : ℚ := a - b * rtrunc (a / b)

/-- Embedding of `handleMouseDown` (lines 102-108): enter the dragging state
and record the pointer position as the drag anchor. -/
def handleMouseDown (ex ey : ℚ) (s : ComponentState) : ComponentState :=
  { s with isDragging := true, dragStart := ⟨ex, ey⟩ }

/-- Embedding of `handleMouseMove` (lines 110-125): when not dragging the
handler returns early; otherwise the rotation pair advances by the pointer
delta scaled by 0.3 (the x angle by `0.3·dy`, the y angle by `0.3·dx`), each
taken `% 360`, and the anchor is re-set to the current pointer position. -/
def handleMouseMove (ex ey : ℚ) (s : ComponentState) : ComponentState :=
  if s.isDragging then
    let dx := ex - s.dragStart.x
    let dy := ey - s.dragStart.y
    { s with
      rotation := ⟨jsRem (s.rotation.x + dy * 0.3) 360,
                   jsRem (s.rotation.y + dx * 0.3) 360⟩,
      dragStart := ⟨ex, ey⟩ }
  else s

/-- Embedding of `handleMouseUp` (lines 127-129), also installed as the
`onMouseLeave` handler (line 180): leave the dragging state. -/
def handleMouseUp (s : ComponentState) : ComponentState :=
  { s with isDragging := false }

/-- Embedding of `handleZoom` (lines 131-133): step the zoom by
`direction · 0.1` and clamp to `[0.5, 2.5]`. The two buttons call it with
`direction = 1` and `direction = -1`. -/
def handleZoom (direction : ℚ) (s : ComponentState) : ComponentState :=
  { s with zoom := max 0.5 (min 2.5 (s.zoom + direction * 0.1)) }

/-- The user-interface events wired to the component: the pointer handlers
on the globe `div` (lines 177-180) and the two zoom buttons
(lines 183-190). -/
inductive UIEvent where
  | mouseDown (x y : ℚ)
  | mouseMove (x y : ℚ)
  | mouseUp
  | mouseLeave
  | zoomInClick
  | zoomOutClick
deriving DecidableEq

/-- Dispatch one event to its handler. -/
def step (e : UIEvent) (s : ComponentState) : ComponentState :=
  match e with
  | .mouseDown x y => handleMouseDown x y s
  | .mouseMove x y => handleMouseMove x y s
  | .mouseUp => handleMouseUp s
  | .mouseLeave => handleMouseUp s
  | .zoomInClick => handleZoom 1 s
  | .zoomOutClick => handleZoom (-1) s

/-- Run a finite sequence of events from a state. -/
def run (evs : List UIEvent) (s : ComponentState) : ComponentState :=
  evs.foldl (fun t e => step e t) s

/-- The zoom value is untouched by the pointer handlers. -/
theorem handleMouseMove_zoom (ex ey : ℚ) (s : ComponentState) :
    (handleMouseMove ex ey s).zoom = s.zoom := by
  unfold handleMouseMove; split <;> rfl

/-- A clamped zoom step always lands in `[0.5, 2.5]`. -/
theorem handleZoom_mem (d : ℚ) (s : ComponentState) :
    1/2 ≤ (handleZoom d s).zoom ∧ (handleZoom d s).zoom ≤ 5/2 := by
  unfold handleZoom
  refine ⟨?_, ?_⟩
  · exact le_trans (by norm_num) (le_max_left _ _)
  · exact max_le (by norm_num) (le_trans (min_le_left _ _) (by norm_num))

/-- One event step keeps the zoom in `[0.5, 2.5]`. -/
theorem step_zoom_mem (e : UIEvent) (s : ComponentState)
    (h : 1/2 ≤ s.zoom ∧ s.zoom ≤ 5/2) :
    1/2 ≤ (step e s).zoom ∧ (step e s).zoom ≤ 5/2 := by
  cases e with
  | mouseDown x y => exact h
  | mouseMove x y => rw [step, handleMouseMove_zoom]; exact h
  | mouseUp => exact h
  | mouseLeave => exact h
  | zoomInClick => exact handleZoom_mem 1 s
  | zoomOutClick => exact handleZoom_mem (-1) s

/-- Any event run from a state with zoom in `[0.5, 2.5]` stays there. -/
theorem run_zoom_mem (evs : List UIEvent) (s : ComponentState)
    (h : 1/2 ≤ s.zoom ∧ s.zoom ≤ 5/2) :
    1/2 ≤ (run evs s).zoom ∧ (run evs s).zoom ≤ 5/2 := by
  induction evs generalizing s with
  | nil => exact h
  | cons e evs ih => exact ih (step e s) (step_zoom_mem e s h)

/-- C3: starting from the initial zoom 1, after every finite sequence of
events — in particular every finite sequence of zoom-in and zoom-out button
clicks, each of which adds or subtracts 0.1 before clamping — the zoom lies
in the closed interval `[0.5, 2.5]`. -/
theorem zoom_invariant (evs : List UIEvent) :
    1/2 ≤ (run evs initState).zoom ∧ (run evs initState).zoom ≤ 5/2 :=
  run_zoom_mem evs initState (by norm_num [initState])

/-- C4: while the component is dragging, a pointer-move at `(ex, ey)` with
delta `(dx, dy)` relative to the recorded anchor advances the x rotation
angle by `0.3·dy` and the y rotation angle by `0.3·dx`, each taken through
the JavaScript remainder by 360, and re-sets the anchor to the current
pointer position. -/
theorem mouseMove_updates_rotation (s : ComponentState) (ex ey : ℚ)
    (h : s.isDragging = true) :
    (handleMouseMove ex ey s).rotation.x
        = jsRem (s.rotation.x + (ey - s.dragStart.y) * 0.3) 360 ∧
    (handleMouseMove ex ey s).rotation.y
        = jsRem (s.rotation.y + (ex - s.dragStart.x) * 0.3) 360 ∧
    (handleMouseMove ex ey s).dragStart = ⟨ex, ey⟩ := by
  simp [handleMouseMove, h]

/-- Witness for C4: in a dragging state with rotation `(0,0)` and anchor
`(0,0)`, the pointer moving to `(10, 20)` sets the x rotation angle to
`(0 + 20·0.3) % 360 = 6`. -/
theorem mouseMove_updates_rotation_witness :
    ({ initState with isDragging := true } : ComponentState).isDragging = true ∧
    (handleMouseMove 10 20 { initState with isDragging := true }).rotation.x
        = jsRem (0 + (20 - 0) * 0.3) 360 ∧
    jsRem (0 + (20 - 0) * 0.3) 360 = 6 :=
  ⟨rfl,
   (mouseMove_updates_rotation { initState with isDragging := true } 10 20 rfl).1,
   by norm_num [jsRem, rtrunc]⟩

/-- The JavaScript remainder by 360 lies strictly between −360 and 360. -/
theorem jsRem_360_bounds (a : ℚ) :
    -360 < jsRem a 360 ∧ jsRem a 360 < 360 := by
  unfold jsRem rtrunc
  by_cases h : 0 ≤ a / 360
  · rw [if_pos h]
    have h1 := Int.floor_le (a / 360)
    have h2 := Int.lt_floor_add_one (a / 360)
    constructor <;> [linarith; linarith]
  · rw [if_neg h]
    have h1 := Int.le_ceil (a / 360)
    have h2 := Int.ceil_lt_add_one (a / 360)
    constructor <;> [linarith; linarith]

/-- Rotation bounds used in the rotation invariant. -/
def RotBounded (s : ComponentState) : Prop :=
  -360 < s.rotation.x ∧ s.rotation.x < 360 ∧
  -360 < s.rotation.y ∧ s.rotation.y < 360

/-- One event step preserves the rotation bounds. -/
theorem step_rot_bounded (e : UIEvent) (s : ComponentState)
    (h : RotBounded s) : RotBounded (step e s) := by
  cases e with
  | mouseDown x y => exact h
  | mouseMove x y =>
    rw [step]
    unfold handleMouseMove
    split
    · refine ⟨(jsRem_360_bounds _).1, (jsRem_360_bounds _).2,
        (jsRem_360_bounds _).1, (jsRem_360_bounds _).2⟩
    · exact h
  | mouseUp => exact h
  | mouseLeave => exact h
  | zoomInClick => exact h
  | zoomOutClick => exact h

/-- Any event run preserves the rotation bounds. -/
theorem run_rot_bounded (evs : List UIEvent) (s : ComponentState)
    (h : RotBounded s) : RotBounded (run evs s) := by
  induction evs generalizing s with
  | nil => exact h
  | cons e evs ih => exact ih (step e s) (step_rot_bounded e s h)

/-- C10: from the initial rotation `(0,0)`, every finite event sequence
keeps both rotation components strictly inside `(−360, 360)`; and the value
can go negative, because `%` is JavaScript's remainder: dragging left by 10
pixels from the origin leaves the y angle at `−3`. -/
theorem rotation_invariant :
    (∀ evs : List UIEvent, RotBounded (run evs initState)) ∧
    (run [UIEvent.mouseDown 0 0, UIEvent.mouseMove (-10) 0]
        initState).rotation.y < 0 := by
  constructor
  · intro evs
    exact run_rot_bounded evs initState (by norm_num [RotBounded, initState])
  · have hc : (⌈(-(1/120) : ℚ)⌉ : ℤ) = 0 := by
      rw [Int.ceil_eq_zero_iff]
      constructor <;> norm_num
    norm_num [run, step, handleMouseDown, handleMouseMove, initState, jsRem,
      rtrunc, hc]

/-- The character list of a string with every character lower-cased, as
JavaScript's `toLowerCase()` produces for the ASCII names used here. -/
def lowerStr (s : String) : List Char := s.toList.map Char.toLower

/-- JavaScript's `String.prototype.includes`: `containsSub needle hay` is
true when `needle` occurs contiguously inside `hay`. -/
def containsSub (needle hay : List Char) : Bool :=
  match hay with
  | [] => needle.isPrefixOf []
  | _ :: t => needle.isPrefixOf hay || containsSub needle t

/-- The `containsSub` check decides list-infix containment. -/
theorem containsSub_iff (n hay : List Char) :
    containsSub n hay = true ↔ n <:+: hay := by
  induction hay with
  | nil => simp [containsSub, List.isPrefixOf_iff_prefix]
  | cons c t ih =>
    rw [containsSub, Bool.or_eq_true, List.isPrefixOf_iff_prefix, ih,
      List.infix_cons_iff]

/-- The predicate of the `satellites.filter` call (lines 136-140): an exact
category match (or the `"all"` wildcard) combined with a case-insensitive
substring match of the search term against the name. -/
def matchesFilter (sat : Satellite) (filter searchTerm : String) : Bool :=
  (filter == "all" || sat.category == filter) &&
    containsSub (lowerStr searchTerm) (lowerStr sat.name)

/-- Embedding of `filteredSatellites` (lines 136-140). -/
def filteredSatellites (sats : List Satellite) (filter searchTerm : String) :
    List Satellite :=
  sats.filter (fun sat => matchesFilter sat filter searchTerm)

/-- C5: the filter keeps exactly the satellites whose category equals the
filter (or the filter is the wildcard `"all"`, which excludes nothing by
category) and whose lower-cased name contains the lower-cased search term;
in particular the name `"SAT-12"` matches the search term `"sat-1"`. -/
theorem filteredSatellites_characterization :
    (∀ (sats : List Satellite) (f t : String) (sat : Satellite),
      sat ∈ filteredSatellites sats f t ↔
        sat ∈ sats ∧ (f = "all" ∨ sat.category = f) ∧
          lowerStr t <:+: lowerStr sat.name) ∧
    containsSub (lowerStr "sat-1") (lowerStr "SAT-12") = true := by
  constructor
  · intro sats f t sat
    simp [filteredSatellites, matchesFilter, List.mem_filter, containsSub_iff,
      Bool.and_eq_true, Bool.or_eq_true, beq_iff_eq, and_assoc]
  · decide

/-- Counterexample to C2: the point at longitude 90°, latitude 0°, radius
100, sent through `toCartesian` and `project3D` at zero rotation, does not
land at the screen center `(0, 0)`. -/
theorem center_projection_counterexample :
    ¬((project3D (toCartesian 90 0 100) (calculateMatrix 0 0)).x = 0 ∧
      (project3D (toCartesian 90 0 100) (calculateMatrix 0 0)).y = 0) := by
  have h90 : ((90 : ℝ) - 90) * Real.pi / 180 = 0 := by norm_num
  have h0 : (0 : ℝ) * Real.pi / 180 = 0 := by norm_num
  norm_num [project3D, toCartesian, calculateMatrix, h90, h0, Real.cos_zero,
    Real.sin_zero]

/-- C2 amended: longitude 90°, latitude 0°, radius 100 projects at zero
rotation to the screen point `(100, 0)` at depth 0 — the rightmost point of
the visible disc on the horizontal axis, not its center; the −90° offset
maps longitude 90° to the +x direction. -/
theorem lon90_projects_to_disc_edge :
    (project3D (toCartesian 90 0 100) (calculateMatrix 0 0)).x = 100 ∧
    (project3D (toCartesian 90 0 100) (calculateMatrix 0 0)).y = 0 ∧
    (project3D (toCartesian 90 0 100) (calculateMatrix 0 0)).z = 0 := by
  have h90 : ((90 : ℝ) - 90) * Real.pi / 180 = 0 := by norm_num
  have h0 : (0 : ℝ) * Real.pi / 180 = 0 := by norm_num
  norm_num [project3D, toCartesian, calculateMatrix, h90, h0, Real.cos_zero,
    Real.sin_zero]

/-- Counterexample to C1: the satellite position longitude 90°, latitude
90°, altitude 35700 (render radius `100 + 35700/100 = 457`, inside the
generator's range) is rendered at zero rotation with transformed depth 457,
whose opacity `(457+100)/200 = 2.785` exceeds 1: the code computes no upper
clamp. -/
theorem opacity_clamp_counterexample :
    isVisible
      (project3D (toCartesian 90 90 (100 + 35700 / 100))
        (calculateMatrix 0 0)).z ∧
    renderOpacity
        (project3D (toCartesian 90 90 (100 + 35700 / 100))
          (calculateMatrix 0 0)).z = 557 / 200 ∧
    ¬(renderOpacity
        (project3D (toCartesian 90 90 (100 + 35700 / 100))
          (calculateMatrix 0 0)).z ≤ 1) := by
  have hpi2 : (90 : ℝ) * Real.pi / 180 = Real.pi / 2 := by ring
  have h90 : ((90 : ℝ) - 90) * Real.pi / 180 = 0 := by norm_num
  have h0 : (0 : ℝ) * Real.pi / 180 = 0 := by norm_num
  refine ⟨?_, ?_, ?_⟩ <;>
    norm_num [isVisible, renderOpacity, project3D, toCartesian,
      calculateMatrix, hpi2, h90, h0, Real.cos_zero, Real.sin_zero,
      Real.cos_pi_div_two, Real.sin_pi_div_two]

/-- C1 amended: a projected point is rendered exactly when its transformed
depth exceeds −100; a rendered point's opacity is `(depth+100)/200`, which
is strictly positive, but the code applies no upper clamp: the opacity is at
most 1 exactly when the depth is at most 100. -/
theorem visibility_opacity_amended (p : Point3) (m : Mat3) :
    (isVisible (project3D p m).z ↔ (project3D p m).z > -100) ∧
    renderOpacity (project3D p m).z = ((project3D p m).z + 100) / 200 ∧
    (isVisible (project3D p m).z → 0 < renderOpacity (project3D p m).z) ∧
    (renderOpacity (project3D p m).z ≤ 1 ↔ (project3D p m).z ≤ 100) := by
  refine ⟨Iff.rfl, rfl, ?_, ?_⟩
  · intro h
    unfold isVisible at h
    unfold renderOpacity
    linarith
  · unfold renderOpacity
    constructor <;> intro h <;> linarith

/-- Witness for the amended C1: the origin projects at zero rotation to
depth 0, is visible, and receives the strictly positive opacity `1/2`. -/
theorem visibility_opacity_amended_witness :
    isVisible (project3D ⟨0, 0, 0⟩ (calculateMatrix 0 0)).z ∧
    0 < renderOpacity (project3D ⟨0, 0, 0⟩ (calculateMatrix 0 0)).z := by
  have hvis : isVisible (project3D ⟨0, 0, 0⟩ (calculateMatrix 0 0)).z := by
    have h0 : (0 : ℝ) * Real.pi / 180 = 0 := by norm_num
    norm_num [isVisible, project3D, calculateMatrix, h0, Real.cos_zero,
      Real.sin_zero]
  exact ⟨hvis,
    (visibility_opacity_amended ⟨0, 0, 0⟩ (calculateMatrix 0 0)).2.2.1 hvis⟩

/-- Rounding to two decimal places: the value of `parseFloat` applied to
the `toFixed(2)` string of a number. -/
def toFixed2 (q : ℚ) : ℚ := (round (q * 100) : ℚ) / 100

/-- The four `Math.random()` draws consumed for one satellite (lines
43-46). The first three are the raw draws in `[0, 1)`; `cat` models
`Math.floor(Math.random() * 5)`, which lies in `0..4` for a draw in
`[0, 1)`. -/
structure Draws where
  lon : ℚ
  lat : ℚ
  alt : ℚ
  cat : Fin 5

/-- The five category literals of the array indexed on line 46. -/
def categories : Fin 5 → String :=
  !["communication", "navigation", "weather", "telescope", "debris"]

/-- One element of the `sampleData` array (lines 40-47), built from the
draws for index `i`. -/
def mkSat (d : Draws) (i : ℕ) : Satellite :=
  { name := "SAT-" ++ toString (i + 1),
    norad_id := i + 1,
    lon := toFixed2 (d.lon * 360 - 180),
    lat := toFixed2 (d.lat * 180 - 90),
    alt := toFixed2 (300 + d.alt * 35700),
    category := categories d.cat }

/-- Embedding of the `sampleData` array (line 40): 200 freshly generated
satellites, parameterized by the stream of random draws. -/
def sampleData (r : ℕ → Draws) : List Satellite :=
  (List.range 200).map (fun i => mkSat (r i) i)

/-- Embedding of the effect of `fetchSatellites` (lines 33-55), run on
mount and by each 30-second tick of the interval installed on line 58:
replace the satellite collection wholesale and clear the loading flag. -/
def fetchSatellites (r : ℕ → Draws) (s : ComponentState) : ComponentState :=
  { s with satellites := sampleData r, loading := false }

/-- C8: the data-source operation run by each timer tick replaces the
satellite collection wholesale with a freshly generated 200-element
collection and clears the loading flag; rotation, zoom, filter, search
term, drag state and error are untouched. -/
theorem fetchSatellites_effect (r : ℕ → Draws) (s : ComponentState) :
    (fetchSatellites r s).satellites = sampleData r ∧
    (sampleData r).length = 200 ∧
    (fetchSatellites r s).loading = false ∧
    (fetchSatellites r s).rotation = s.rotation ∧
    (fetchSatellites r s).zoom = s.zoom ∧
    (fetchSatellites r s).filter = s.filter ∧
    (fetchSatellites r s).searchTerm = s.searchTerm ∧
    (fetchSatellites r s).isDragging = s.isDragging ∧
    (fetchSatellites r s).dragStart = s.dragStart ∧
    (fetchSatellites r s).error = s.error := by
  refine ⟨rfl, ?_, rfl, rfl, rfl, rfl, rfl, rfl, rfl, rfl⟩
  simp [sampleData]

/-- A generated altitude, `toFixed(2)` of `300 + u·35700` for a draw
`u ∈ [0, 1)`, lies in `[300, 36000]`. -/
theorem toFixed2_alt_bounds (u : ℚ) (h0 : 0 ≤ u) (h1 : u < 1) :
    300 ≤ toFixed2 (300 + u * 35700) ∧ toFixed2 (300 + u * 35700) ≤ 36000 := by
  unfold toFixed2
  have hq0 : (30000 : ℚ) ≤ (300 + u * 35700) * 100 := by nlinarith
  have hq1 : (300 + u * 35700) * 100 < 3600000 := by nlinarith
  have hr0 : (30000 : ℤ) ≤ round ((300 + u * 35700) * 100) := by
    rw [round_eq]
    exact Int.le_floor.mpr (by push_cast; linarith)
  have hr1 : round ((300 + u * 35700) * 100) ≤ 3600000 := by
    have h2 := round_le_add_half ((300 + u * 35700) * 100)
    have h3 : ((round ((300 + u * 35700) * 100) : ℤ) : ℚ) < 3600001 := by
      linarith
    have h4 : (round ((300 + u * 35700) * 100) : ℤ) < 3600001 := by
      exact_mod_cast h3
    omega
  have hc0 : ((30000 : ℤ) : ℚ) ≤ (round ((300 + u * 35700) * 100) : ℚ) := by
    exact_mod_cast hr0
  have hc1 : ((round ((300 + u * 35700) * 100) : ℤ) : ℚ) ≤ 3600000 := by
    exact_mod_cast hr1
  constructor <;> [push_cast at hc0 ⊢; push_cast at hc1 ⊢] <;> linarith

/-- A square at most 1 bounds its base below by −1. -/
theorem neg_one_le_of_sq_le_one (d : ℝ) (h : d ^ 2 ≤ 1) : -1 ≤ d := by
  nlinarith [sq_nonneg (d + 1)]

/-- The transformed depth of any spherical point of radius `rad ≥ 0` under
any rotation built by `calculateMatrix` is at least `−rad`: the matrix rows
are unit vectors, so the depth is a dot product of two vectors of norms 1
and `rad`. -/
theorem projected_depth_lower_bound (lon lat a b rad : ℝ) (hrad : 0 ≤ rad) :
    -rad ≤ (project3D (toCartesian lon lat rad) (calculateMatrix a b)).z := by
  simp only [project3D, toCartesian, calculateMatrix]
  have hx := Real.sin_sq_add_cos_sq (a * Real.pi / 180)
  have hy := Real.sin_sq_add_cos_sq (b * Real.pi / 180)
  have hl := Real.sin_sq_add_cos_sq (lat * Real.pi / 180)
  have ho := Real.sin_sq_add_cos_sq ((lon - 90) * Real.pi / 180)
  set sxv := Real.sin (a * Real.pi / 180)
  set cxv := Real.cos (a * Real.pi / 180)
  set syv := Real.sin (b * Real.pi / 180)
  set cyv := Real.cos (b * Real.pi / 180)
  set slv := Real.sin (lat * Real.pi / 180)
  set clv := Real.cos (lat * Real.pi / 180)
  set sov := Real.sin ((lon - 90) * Real.pi / 180)
  set cov := Real.cos ((lon - 90) * Real.pi / 180)
  have ha : (-(cxv * syv)) ^ 2 + sxv ^ 2 + (cxv * cyv) ^ 2 = 1 := by
    linear_combination cxv ^ 2 * hy + hx
  have hb : (clv * cov) ^ 2 + (clv * sov) ^ 2 + slv ^ 2 = 1 := by
    linear_combination clv ^ 2 * ho + hl
  have hd := unit_dot_sq_le_one _ _ _ _ _ _ ha hb
  have hd1 := neg_one_le_of_sq_le_one _ hd
  nlinarith [mul_le_mul_of_nonneg_left hd1 hrad]

/-- C9: every satellite of the mock generator (with the three positional
draws in `[0, 1)`) has altitude in `[300, 36000]`, hence render radius
`100 + alt/100` at most 460; for every rotation, the transformed depth `z`
of its rendered point satisfies `1000 + z > 0`, so the perspective divide
never divides by zero and the scale factor is strictly positive. -/
theorem generated_depth_safe (r : ℕ → Draws)
    (hr : ∀ i, 0 ≤ (r i).alt ∧ (r i).alt < 1) :
    ∀ sat ∈ sampleData r,
      (300 ≤ sat.alt ∧ sat.alt ≤ 36000 ∧ 100 + sat.alt / 100 ≤ 460) ∧
      ∀ a b : ℝ,
        0 < 1000 +
            (project3D
              (toCartesian sat.lon sat.lat (100 + (sat.alt : ℝ) / 100))
              (calculateMatrix a b)).z ∧
        0 < 1000 /
            (1000 +
              (project3D
                (toCartesian sat.lon sat.lat (100 + (sat.alt : ℝ) / 100))
                (calculateMatrix a b)).z) := by
  intro sat hsat
  obtain ⟨i, hi, rfl⟩ : ∃ i, i ∈ List.range 200 ∧ mkSat (r i) i = sat := by
    simpa [sampleData] using hsat
  have halt := toFixed2_alt_bounds (r i).alt (hr i).1 (hr i).2
  have halt1 : (300 : ℚ) ≤ (mkSat (r i) i).alt := halt.1
  have halt2 : (mkSat (r i) i).alt ≤ 36000 := halt.2
  refine ⟨⟨halt1, halt2, by linarith⟩, ?_⟩
  intro a b
  have hlb : (300 : ℝ) ≤ ((mkSat (r i) i).alt : ℝ) := by exact_mod_cast halt1
  have hub : ((mkSat (r i) i).alt : ℝ) ≤ 36000 := by exact_mod_cast halt2
  have hrad : (0 : ℝ) ≤ 100 + ((mkSat (r i) i).alt : ℝ) / 100 := by linarith
  have hz := projected_depth_lower_bound ((mkSat (r i) i).lon)
    ((mkSat (r i) i).lat) a b (100 + ((mkSat (r i) i).alt : ℝ) / 100) hrad
  have hpos : (0 : ℝ) < 1000 +
      (project3D
        (toCartesian ((mkSat (r i) i).lon) ((mkSat (r i) i).lat)
          (100 + ((mkSat (r i) i).alt : ℝ) / 100))
        (calculateMatrix a b)).z := by
    linarith
  exact ⟨hpos, div_pos (by norm_num) hpos⟩

/-- Witness for C9: with every draw equal to 0, the first generated
satellite has altitude 300 and its rendered point at zero rotation has
`1000 + z > 0`. -/
theorem generated_depth_safe_witness :
    mkSat ⟨0, 0, 0, 0⟩ 0 ∈ sampleData (fun _ => ⟨0, 0, 0, 0⟩) ∧
    (mkSat ⟨0, 0, 0, 0⟩ 0).alt = 300 ∧
    0 < 1000 +
        (project3D
          (toCartesian ((mkSat ⟨0, 0, 0, 0⟩ 0).lon)
            ((mkSat ⟨0, 0, 0, 0⟩ 0).lat)
            (100 + ((mkSat ⟨0, 0, 0, 0⟩ 0).alt : ℝ) / 100))
          (calculateMatrix 0 0)).z := by
  have hmem : mkSat (⟨0, 0, 0, 0⟩ : Draws) 0 ∈
      sampleData (fun _ => ⟨0, 0, 0, 0⟩) := by
    simp only [sampleData, List.mem_map]
    exact ⟨0, by simp, rfl⟩
  have halt : (mkSat (⟨0, 0, 0, 0⟩ : Draws) 0).alt = 300 := by
    have h30000 : round ((30000 : ℚ)) = 30000 := by
      rw [round_eq]
      norm_num
    norm_num [mkSat, toFixed2, h30000]
  have h := generated_depth_safe (fun _ => ⟨0, 0, 0, 0⟩)
    (fun _ => ⟨le_refl 0, by norm_num⟩) (mkSat ⟨0, 0, 0, 0⟩ 0) hmem
  exact ⟨hmem, halt, (h.2 0 0).1⟩

end SatTracker
